import Mathlib

/-!
Verification of the `jvcByte/rust-projects` repository: a CRUD API for a
`users` resource (actix-web + SeaORM) with schema migrations, and a
hello-world demo service.

The database engine is an external collaborator (the spec assumes it
provides per-statement atomicity and unique auto-incrementing primary
keys), so it is modelled here as an explicit state: a list of rows plus
the next auto-increment id.  Handlers from
`src/crud-with-sea_orm/src/api/users/mod.rs` are embedded as pure
functions from that state; each database round-trip may be made to fail
through an injected fault schedule, mirroring the `map_err(... 500 ...)`
conversion the handlers perform on SeaORM errors.
-/

namespace user

/-- `user::Model` from `src/api/users/mod.rs`: one row of the `users`
table.  `created_at` is a timestamp-with-timezone in the source; its
value is opaque to all the code here, so it is modelled as a `Nat`. -/
structure Model where
  id : Int
  name : String
  email : String
  created_at : Option Nat
deriving DecidableEq, Repr

/-- SeaORM `ActiveValue`: a field of an active model is either not set,
explicitly set, or carried over unchanged from a fetched model. -/
inductive ActiveValue (α : Type) where
  | notSet
  | set (v : α)
  | unchanged (v : α)
deriving DecidableEq, Repr

/-- The value held by an `ActiveValue`, if any. -/
def ActiveValue.value : ActiveValue α → Option α
  | .notSet => none
  | .set v => some v
  | .unchanged v => some v

/-- `user::ActiveModel` derived by SeaORM from `Model`. -/
structure ActiveModel where
  id : ActiveValue Int
  name : ActiveValue String
  email : ActiveValue String
  created_at : ActiveValue (Option Nat)
deriving DecidableEq, Repr

/-- SeaORM's `Default` for an active model: every field `NotSet`. -/
def ActiveModel.default : ActiveModel :=
  ⟨.notSet, .notSet, .notSet, .notSet⟩

/-- SeaORM's `Model → ActiveModel` conversion (`model.into()`): every
field becomes `Unchanged` with the fetched value. -/
def Model.intoActive (m : Model) : ActiveModel :=
  ⟨.unchanged m.id, .unchanged m.name, .unchanged m.email, .unchanged m.created_at⟩

/-- `user::Relation` from `src/api/users/mod.rs`: an enum with no
variants ("no relations"). -/
inductive Relation : Type

/-- Placeholder for SeaORM's `RelationDef`; its structure is irrelevant
here because no `Relation` value exists to produce one. -/
inductive RelationDef : Type
  | mk

/-- `RelationTrait::def` for `user::Relation`.  The source body is a
runtime abort (`"No Relations"`); since `Relation` has no variants the
function is definable by case elimination on its impossible argument,
and no call site can ever reach the abort. -/
def Relation.def : Relation → RelationDef := fun r => nomatch r

end user

/-- The `users` table: its rows plus the database's auto-increment
counter for the primary key (the external collaborator contract: unique
auto-assigned ids). -/
structure Db where
  rows : List user.Model
  nextId : Int
deriving DecidableEq, Repr

/-- Database ids are assigned by an increasing counter, so every stored
row's id is below the counter. -/
def DbWf (db : Db) : Prop :=
  ∀ r ∈ db.rows, r.id < db.nextId

/-- `User::find().all(db)`: all rows, in table order. -/
def dbFindAll (db : Db) : List user.Model :=
  db.rows

/-- `User::find_by_id(id).one(db)`: the row with the given primary key,
if any. -/
def dbFindById (db : Db) (id : Int) : Option user.Model :=
  db.rows.find? (fun r => r.id == id)

/-- `User::insert(active).exec(db)`: appends a fresh row, assigning the
auto-increment id; `NotSet` on a NOT NULL column without default is a
database error (`none`), `NotSet` on the nullable `created_at` stores
NULL.  Returns the new state and `last_insert_id`. -/
def dbInsert (db : Db) (am : user.ActiveModel) : Option (Db × Int) :=
  match am.name.value, am.email.value with
  | some n, some e =>
    let createdAt : Option Nat :=
      match am.created_at.value with
      | some c => c
      | none => none
    let row : user.Model := ⟨db.nextId, n, e, createdAt⟩
    some (⟨db.rows ++ [row], db.nextId + 1⟩, db.nextId)
  | _, _ => none

/-- The effect of one SQL `UPDATE` on one row: columns that are `Set` in
the active model take the new value, the rest keep the stored value. -/
def applyColumn (av : user.ActiveValue α) (old : α) : α :=
  match av with
  | .set v => v
  | _ => old

/-- The per-row effect of the SQL `UPDATE ... WHERE id = i` issued by
`active.update(db)`: a matching row takes the `Set` columns, any other
row is untouched. -/
def touchRow (am : user.ActiveModel) (i : Int) (r : user.Model) : user.Model :=
  if r.id == i then
    { r with
        name := applyColumn am.name r.name
        email := applyColumn am.email r.email
        created_at := applyColumn am.created_at r.created_at }
  else r

/-- `active.update(db)`: updates the row whose primary key equals the
active model's id, returning the new state and the updated model (whose
fields are the active model's values).  Fails (`none`) when the primary
key is unset, some field carries no value, or no row matches (SeaORM's
`RecordNotUpdated`). -/
def dbUpdate (db : Db) (am : user.ActiveModel) : Option (Db × user.Model) :=
  match am.id.value, am.name.value, am.email.value, am.created_at.value with
  | some i, some n, some e, some c =>
    if db.rows.any (fun r => r.id == i) then
      some (⟨db.rows.map (touchRow am i), db.nextId⟩, ⟨i, n, e, c⟩)
    else none
  | _, _, _, _ => none

/-- `User::delete_by_id(id).exec(db)`: removes every row matching the
id and reports `rows_affected`. -/
def dbDelete (db : Db) (id : Int) : Db × Nat :=
  (⟨db.rows.filter (fun r => !(r.id == id)), db.nextId⟩,
   db.rows.countP (fun r => r.id == id))

--
-- DTOs (the same shapes as in `src/api/users/mod.rs`)
--

/-- `CreateUser`: the POST body `{name, email}`. -/
structure CreateUser where
  name : String
  email : String
deriving DecidableEq, Repr

/-- `UpdateUser`: the PUT body `{name?, email?}`; `none` means the field
was omitted from the JSON payload. -/
structure UpdateUser where
  name : Option String
  email : Option String
deriving DecidableEq, Repr

/-- `UserResponse`: the public DTO `{id, name, email}` (`created_at`
deliberately omitted). -/
structure UserResponse where
  id : Int
  name : String
  email : String
deriving DecidableEq, Repr

/-- A response body: plain text, or the JSON serialization of one DTO or
of an array of DTOs. -/
inductive Body where
  | text (s : String)
  | jsonUser (u : UserResponse)
  | jsonUsers (us : List UserResponse)
deriving DecidableEq, Repr

/-- An HTTP response: status code and body. -/
structure HttpResponse where
  status : Nat
  body : Body
deriving DecidableEq, Repr

/-- `UserResponse { id: m.id, name: m.name, email: m.email }`. -/
def toResponse (m : user.Model) : UserResponse :=
  ⟨m.id, m.name, m.email⟩

/-- A fault schedule: for each database round-trip of a handler (in call
order, counted from 0), either `none` (the call succeeds) or the SeaORM
error text the call fails with. -/
def Faults := Nat → Option String

/-- The schedule with no database failures. -/
def noFaults : Faults := fun _ => none

/-- The schedule whose call number `k` fails with message `e`. -/
def faultAt (k : Nat) (e : String) : Faults :=
  fun n => if n == k then some e else none

/-- `actix_web::error::ErrorInternalServerError(format!("db error: {}", e))`:
the 500 response every handler produces from a SeaORM error via `map_err`. -/
def dbError (e : String) : HttpResponse :=
  ⟨500, .text ("db error: " ++ e)⟩

--
-- Handlers (from `src/crud-with-sea_orm/src/api/users/mod.rs`)
--

/-- `list_users`: find all, map to DTOs, 200 with a JSON array. -/
def list_users (faults : Faults) (db : Db) : HttpResponse × Db :=
  match faults 0 with
  | some e => (dbError e, db)
  | none => (⟨200, .jsonUsers ((dbFindAll db).map toResponse)⟩, db)

/-- `get_user`: find by id; found → 200 with DTO, absent → 404. -/
def get_user (faults : Faults) (id : Int) (db : Db) : HttpResponse × Db :=
  match faults 0 with
  | some e => (dbError e, db)
  | none =>
    match dbFindById db id with
    | some u => (⟨200, .jsonUser (toResponse u)⟩, db)
    | none => (⟨404, .text ("user " ++ toString id ++ " not found")⟩, db)

/-- The active model `create_user` builds: id left `NotSet` (auto
increment), name and email `Set` from the body, `created_at` explicitly
`Set(None)`. -/
def createActive (body : CreateUser) : user.ActiveModel :=
  { user.ActiveModel.default with
      name := .set body.name
      email := .set body.email
      created_at := .set none }

/-- The match on the post-insert re-read at the end of `create_user`:
a row → 201 with its DTO; nothing → 500 `"failed to fetch created user"`. -/
def createReadback (found : Option user.Model) : HttpResponse :=
  match found with
  | some m => ⟨201, .jsonUser (toResponse m)⟩
  | none => ⟨500, .text "failed to fetch created user"⟩

/-- `create_user`: insert the active model (call 0), then re-read the
row by `last_insert_id` (call 1) and respond through `createReadback`. -/
def create_user (faults : Faults) (body : CreateUser) (db : Db) :
    HttpResponse × Db :=
  match faults 0 with
  | some e => (dbError e, db)
  | none =>
    match dbInsert db (createActive body) with
    | none => (dbError "null value in NOT NULL column", db)
    | some (db1, lastId) =>
      match faults 1 with
      | some e => (dbError e, db1)
      | none => (createReadback (dbFindById db1 lastId), db1)

/-- The database state after a successful `create_user` insert. -/
def dbAfterCreate (body : CreateUser) (db : Db) : Db :=
  ⟨db.rows ++ [⟨db.nextId, body.name, body.email, none⟩], db.nextId + 1⟩

/-- The active model `update_user` sends: the fetched model converted to
`Unchanged` fields, with `Set` overriding exactly the fields present in
the body. -/
def updateActive (m : user.Model) (body : UpdateUser) : user.ActiveModel :=
  let a0 := m.intoActive
  let a1 :=
    match body.name with
    | some n => { a0 with name := .set n }
    | none => a0
  match body.email with
  | some e => { a1 with email := .set e }
  | none => a1

/-- `update_user`: fetch existing (call 0); absent → 404; present →
apply the supplied fields over the fetched model and update (call 1),
responding 200 with the updated DTO. -/
def update_user (faults : Faults) (id : Int) (body : UpdateUser) (db : Db) :
    HttpResponse × Db :=
  match faults 0 with
  | some e => (dbError e, db)
  | none =>
    match dbFindById db id with
    | some model =>
      match faults 1 with
      | some e => (dbError e, db)
      | none =>
        match dbUpdate db (updateActive model body) with
        | some (db1, updated) => (⟨200, .jsonUser (toResponse updated)⟩, db1)
        | none => (dbError "None of the records are updated", db)
    | none => (⟨404, .text ("user " ++ toString id ++ " not found")⟩, db)

/-- `delete_user`: delete by id (call 0); `rows_affected > 0` → 200 with
`"deleted user {id}"`, otherwise 404. -/
def delete_user (faults : Faults) (id : Int) (db : Db) : HttpResponse × Db :=
  match faults 0 with
  | some e => (dbError e, db)
  | none =>
    let (db1, affected) := dbDelete db id
    if affected > 0 then
      (⟨200, .text ("deleted user " ++ toString id)⟩, db1)
    else
      (⟨404, .text ("user " ++ toString id ++ " not found")⟩, db1)

--
-- Schema Manager (`src/crud-with-sea_orm/migration/`)
--

/-- Column kinds used by the migrations (`pk_auto`, `string`, `text`,
`timestamp_with_time_zone` from the migration schema helpers). -/
inductive ColumnType where
  | autoPk
  | string
  | text
  | timestampTz
deriving DecidableEq, Repr

/-- A column of a created table; the schema helpers used here all
declare NOT NULL columns, so `nullable` is false unless a migration
says otherwise. -/
structure ColumnDef where
  colName : String
  ty : ColumnType
  nullable : Bool
deriving DecidableEq, Repr

/-- A table of the database schema. -/
structure TableDef where
  tableName : String
  columns : List ColumnDef
deriving DecidableEq, Repr

/-- The database schema state acted on by migrations: the tables, plus
a flag recording whether the fixed set of seed Post rows is present. -/
structure Schema where
  tables : List TableDef
  postsSeeded : Bool
deriving DecidableEq, Repr

/-- `manager.create_table(Table::create().if_not_exists()...)`: a no-op
when a table of that name already exists, otherwise adds the table. -/
def createTableIfNotExists (s : Schema) (t : TableDef) : Schema :=
  if s.tables.any (fun x => x.tableName == t.tableName) then s
  else { s with tables := s.tables ++ [t] }

/-- `manager.drop_table(Table::drop()...)`: removes the table, a
database error if no such table exists. -/
def dropTable (s : Schema) (nm : String) : Except String Schema :=
  if s.tables.any (fun x => x.tableName == nm) then
    .ok { s with tables := s.tables.filter (fun x => !(x.tableName == nm)) }
  else .error ("table not found: " ++ nm)

/-- A migration step: a name and its `up` / `down` operations over the
schema state, either of which may fail with a database error. -/
structure MigrationDef where
  migName : String
  up : Schema → Except String Schema
  down : Schema → Except String Schema

/-- The `posts` table created by `m20220101_000001_post.rs`: `id` auto
primary key, `title` string, `text` long text, `created_at` and
`updated_at` timestamp-with-timezone, all NOT NULL. -/
def postsTable : TableDef :=
  ⟨"posts",
   [⟨"id", .autoPk, false⟩,
    ⟨"title", .string, false⟩,
    ⟨"text", .text, false⟩,
    ⟨"created_at", .timestampTz, false⟩,
    ⟨"updated_at", .timestampTz, false⟩]⟩

/-- `m20220101_000001_post::Migration`: up creates the `posts` table
guarded by `if_not_exists`, down drops it. -/
def postMigration : MigrationDef :=
  ⟨"m20220101_000001_post",
   fun s => .ok (createTableIfNotExists s postsTable),
   fun s => dropTable s "posts"⟩

/-- Modelled from the spec: the users migration
(`m20260121_020308_users.rs` is registered in `migration/src/lib.rs`
but its source is not in the repository snapshot).  Per the spec it
creates the `users` table — auto primary key `id`, required `name`,
required `email`, optional `created_at` — and its reversal drops the
table. -/
def usersTable : TableDef :=
  ⟨"users",
   [⟨"id", .autoPk, false⟩,
    ⟨"name", .string, false⟩,
    ⟨"email", .string, false⟩,
    ⟨"created_at", .timestampTz, true⟩]⟩

/-- Modelled from the spec: the users migration step (source file
missing from the snapshot); create the `users` table, reversal drops
it. -/
def usersMigration : MigrationDef :=
  ⟨"m20260121_020308_users",
   fun s => .ok (createTableIfNotExists s usersTable),
   fun s => dropTable s "users"⟩

/-- Modelled from the spec: the seed migration
(`m20220120_000002_seed_posts.rs` is registered in
`migration/src/lib.rs` but its source is not in the repository
snapshot).  Per the spec it inserts a fixed set of Post rows; the
reversal deletes them.  The fixed row contents are opaque here, so the
state tracks only their presence. -/
def seedPostsMigration : MigrationDef :=
  ⟨"m20220120_000002_seed_posts",
   fun s => .ok { s with postsSeeded := true },
   fun s => .ok { s with postsSeeded := false }⟩

namespace Migrator

/-- `Migrator::migrations` from `migration/src/lib.rs`: the three steps
in registration order. -/
def migrations : List MigrationDef :=
  [postMigration, usersMigration, seedPostsMigration]

end Migrator

/-- Run a list of steps in order, applying `go` to each; a failing step
aborts the run with its error. -/
def runSteps (go : MigrationDef → Schema → Except String Schema) :
    List MigrationDef → Schema → Except String Schema
  | [], s => .ok s
  | m :: rest, s =>
    match go m s with
    | .ok s1 => runSteps go rest s1
    | .error e => .error e

/-- Modelled from the spec: `MigratorTrait`'s executor (the
`sea_orm_migration` framework is an external collaborator) applies the
registered steps strictly in registration order for up. -/
def migrateUp (s : Schema) : Except String Schema :=
  runSteps (fun m => m.up) Migrator.migrations s

/-- Modelled from the spec: the framework reverts the registered steps
in reverse registration order for down. -/
def migrateDown (s : Schema) : Except String Schema :=
  runSteps (fun m => m.down) Migrator.migrations.reverse s

--
-- hello-world demo service (`src/hello-world/src/main.rs`)
--

/-- `echo`: the POST /echo handler — 200 with the request body. -/
def echo (req_body : String) : HttpResponse :=
  ⟨200, .text req_body⟩

--
-- Helper lemmas
--

@[simp]
theorem noFaults_eval (n : Nat) : noFaults n = none := rfl

@[simp]
theorem faultAt_same (k : Nat) (e : String) : faultAt k e k = some e := by
  simp [faultAt]

theorem faultAt_other (k n : Nat) (e : String) (h : n ≠ k) :
    faultAt k e n = none := by
  simp [faultAt, h]

theorem find?_append_of_none {α : Type} (p : α → Bool) :
    ∀ (l1 l2 : List α), l1.find? p = none → (l1 ++ l2).find? p = l2.find? p
  | [], _, _ => rfl
  | a :: l1, l2, h => by
    rcases hpa : p a with _ | _
    · have hpa2 : ¬ p a = true := by simp [hpa]
      rw [List.find?_cons_of_neg _ hpa2] at h
      rw [List.cons_append, List.find?_cons_of_neg _ hpa2]
      exact find?_append_of_none p l1 l2 h
    · rw [List.find?_cons_of_pos _ hpa] at h
      exact absurd h (by simp)

/-- In a well-formed database no stored row already carries the id the
auto-increment counter will assign next. -/
theorem find?_fresh (db : Db) (hwf : DbWf db) :
    db.rows.find? (fun r => r.id == db.nextId) = none := by
  rw [List.find?_eq_none]
  intro r hr
  simp only [beq_iff_eq]
  exact ne_of_lt (hwf r hr)

/-- `create_user` under no faults: insert the row (name/email from the
body, `created_at` None, id from the counter), then answer with the
readback of the re-read at `last_insert_id`. -/
theorem create_user_noFaults (body : CreateUser) (db : Db) :
    create_user noFaults body db =
      (createReadback (dbFindById (dbAfterCreate body db) db.nextId),
       dbAfterCreate body db) := rfl

theorem dbFindById_after_create (body : CreateUser) (db : Db) (hwf : DbWf db) :
    dbFindById (dbAfterCreate body db) db.nextId =
      some ⟨db.nextId, body.name, body.email, none⟩ := by
  show (db.rows ++ [_]).find? _ = _
  rw [find?_append_of_none _ _ _ (find?_fresh db hwf)]
  simp [List.find?]

--
-- Claim theorems
--

/-- C1: for every valid request body `{name, email}`, the CREATE
handler responds 201 with a DTO `{id, name, email}`, and a subsequent
GET on the returned id responds 200 with a record whose name and email
are identical to those submitted to CREATE. -/
theorem C1_create_then_get (body : CreateUser) (db : Db) (hwf : DbWf db) :
    ∃ u : UserResponse,
      (create_user noFaults body db).1 = ⟨201, Body.jsonUser u⟩ ∧
      u.name = body.name ∧ u.email = body.email ∧
      (get_user noFaults u.id (create_user noFaults body db).2).1 =
        ⟨200, Body.jsonUser u⟩ := by
  refine ⟨⟨db.nextId, body.name, body.email⟩, ?_, rfl, rfl, ?_⟩
  · simp only [create_user_noFaults, dbFindById_after_create body db hwf]
    rfl
  · simp only [create_user_noFaults]
    show (get_user noFaults db.nextId (dbAfterCreate body db)).1 = _
    simp only [get_user, noFaults_eval, dbFindById_after_create body db hwf]
    rfl

theorem C1_create_then_get_witness :
    DbWf ⟨[⟨1, "Ada", "ada@x.io", none⟩], 2⟩ ∧
    ∃ u : UserResponse,
      (create_user noFaults ⟨"Bob", "bob@y.io"⟩
          ⟨[⟨1, "Ada", "ada@x.io", none⟩], 2⟩).1 = ⟨201, Body.jsonUser u⟩ ∧
      u.name = "Bob" ∧ u.email = "bob@y.io" ∧
      (get_user noFaults u.id
          (create_user noFaults ⟨"Bob", "bob@y.io"⟩
            ⟨[⟨1, "Ada", "ada@x.io", none⟩], 2⟩).2).1 =
        ⟨200, Body.jsonUser u⟩ :=
  ⟨by unfold DbWf; decide,
   C1_create_then_get ⟨"Bob", "bob@y.io"⟩ ⟨[⟨1, "Ada", "ada@x.io", none⟩], 2⟩
     (by unfold DbWf; decide)⟩

/-- C5: the CREATE handler inserts a row whose `created_at` is left
unset (`None`), re-reads the row by the insert's returned id
(`last_insert_id`, here the counter value), and responds with the
readback of that re-read: 201 with the re-read row's DTO when a row is
found, 500 when the post-insert re-read finds no row. -/
theorem C5_create_insert_readback (body : CreateUser) (db : Db) :
    (create_user noFaults body db).2.rows =
        db.rows ++ [⟨db.nextId, body.name, body.email, none⟩] ∧
    create_user noFaults body db =
      (createReadback
        (dbFindById (create_user noFaults body db).2 db.nextId),
       (create_user noFaults body db).2) ∧
    createReadback none = ⟨500, Body.text "failed to fetch created user"⟩ ∧
    ∀ m : user.Model,
      createReadback (some m) = ⟨201, Body.jsonUser (toResponse m)⟩ :=
  ⟨rfl, rfl, rfl, fun _ => rfl⟩

/-- C9: the users entity's `Relation` enum has no variants, so no value
exists on which its `def` method (whose source body is a runtime abort)
can be invoked: the abort is unreachable from any valid call path. -/
theorem C9_relation_uninhabited : ∀ r : user.Relation, False :=
  fun r => nomatch r

/-- C10: in the hello-world demo service, the POST /echo handler is the
identity on request bodies: for every body `s` it responds 200 with
body exactly `s`. -/
theorem C10_echo_identity (s : String) : echo s = ⟨200, Body.text s⟩ := rfl

/-- C3: for every id with no matching row in the users table, the GET,
UPDATE and DELETE handlers each respond HTTP 404. -/
theorem C3_absent_id_404 (db : Db) (id : Int) (body : UpdateUser)
    (h : dbFindById db id = none) :
    (get_user noFaults id db).1.status = 404 ∧
    (update_user noFaults id body db).1.status = 404 ∧
    (delete_user noFaults id db).1.status = 404 := by
  have hnone : ∀ r ∈ db.rows, ¬ (r.id == id) = true := List.find?_eq_none.mp h
  have hcount : db.rows.countP (fun r => r.id == id) = 0 :=
    List.countP_eq_zero.mpr hnone
  refine ⟨?_, ?_, ?_⟩
  · simp [get_user, h]
  · simp [update_user, h]
  · simp [delete_user, dbDelete, hcount]

theorem C3_absent_id_404_witness :
    (get_user noFaults 5 ⟨[⟨1, "Ada", "ada@x.io", none⟩], 2⟩).1.status = 404 ∧
    (update_user noFaults 5 ⟨some "X", none⟩
        ⟨[⟨1, "Ada", "ada@x.io", none⟩], 2⟩).1.status = 404 ∧
    (delete_user noFaults 5 ⟨[⟨1, "Ada", "ada@x.io", none⟩], 2⟩).1.status = 404 :=
  C3_absent_id_404 ⟨[⟨1, "Ada", "ada@x.io", none⟩], 2⟩ 5 ⟨some "X", none⟩
    (by decide)

/-- C4: the DELETE handler distinguishes deletion from absence: on an
existing row it responds 200 with the plain-text body
`"deleted user {id}"` and removes the row, so an immediately repeated
DELETE on the same id responds 404. -/
theorem C4_delete_twice (db : Db) (id : Int) (m : user.Model)
    (h : dbFindById db id = some m) :
    (delete_user noFaults id db).1 =
        ⟨200, Body.text ("deleted user " ++ toString id)⟩ ∧
    dbFindById (delete_user noFaults id db).2 id = none ∧
    (delete_user noFaults id (delete_user noFaults id db).2).1 =
        ⟨404, Body.text ("user " ++ toString id ++ " not found")⟩ := by
  have hfd : db.rows.find? (fun r => r.id == id) = some m := h
  have hp := List.find?_some hfd
  have hmem : m ∈ db.rows := List.mem_of_find?_eq_some hfd
  have hpos : 0 < db.rows.countP (fun r => r.id == id) :=
    List.countP_pos_iff.mpr ⟨m, hmem, hp⟩
  have hfilter :
      ∀ r ∈ db.rows.filter (fun r => !(r.id == id)), ¬ (r.id == id) = true := by
    intro r hr
    have h2 := (List.mem_filter.mp hr).2
    simpa using h2
  have hfind :
      (db.rows.filter (fun r => !(r.id == id))).find? (fun r => r.id == id) =
        none := List.find?_eq_none.mpr hfilter
  have hcount0 :
      (db.rows.filter (fun r => !(r.id == id))).countP (fun r => r.id == id) =
        0 := List.countP_eq_zero.mpr hfilter
  refine ⟨?_, ?_, ?_⟩
  · simp [delete_user, dbDelete, hpos]
  · simp [delete_user, dbDelete, dbFindById, hpos, hfind]
  · simp [delete_user, dbDelete, hpos, hcount0]

theorem C4_delete_twice_witness :
    (delete_user noFaults 1 ⟨[⟨1, "Ada", "ada@x.io", none⟩], 2⟩).1 =
        ⟨200, Body.text ("deleted user " ++ toString (1 : Int))⟩ ∧
    dbFindById
        (delete_user noFaults 1 ⟨[⟨1, "Ada", "ada@x.io", none⟩], 2⟩).2 1 =
      none ∧
    (delete_user noFaults 1
        (delete_user noFaults 1 ⟨[⟨1, "Ada", "ada@x.io", none⟩], 2⟩).2).1 =
      ⟨404, Body.text ("user " ++ toString (1 : Int) ++ " not found")⟩ :=
  C4_delete_twice ⟨[⟨1, "Ada", "ada@x.io", none⟩], 2⟩ 1
    ⟨1, "Ada", "ada@x.io", none⟩ (by decide)

--
-- Update helpers
--

theorem updateActive_id_value (m : user.Model) (body : UpdateUser) :
    (updateActive m body).id.value = some m.id := by
  rcases body with ⟨bn, be⟩
  cases bn <;> cases be <;> rfl

theorem updateActive_name_value (m : user.Model) (body : UpdateUser) :
    (updateActive m body).name.value = some (body.name.getD m.name) := by
  rcases body with ⟨bn, be⟩
  cases bn <;> cases be <;> rfl

theorem updateActive_email_value (m : user.Model) (body : UpdateUser) :
    (updateActive m body).email.value = some (body.email.getD m.email) := by
  rcases body with ⟨bn, be⟩
  cases bn <;> cases be <;> rfl

theorem updateActive_created_at_value (m : user.Model) (body : UpdateUser) :
    (updateActive m body).created_at.value = some m.created_at := by
  rcases body with ⟨bn, be⟩
  cases bn <;> cases be <;> rfl

theorem touchRow_id (am : user.ActiveModel) (i : Int) (r : user.Model) :
    (touchRow am i r).id = r.id := by
  unfold touchRow
  split <;> rfl

/-- `find?` by id commutes with an id-preserving row transformation. -/
theorem find?_map_touch (am : user.ActiveModel) (i j : Int) :
    ∀ l : List user.Model,
      (l.map (touchRow am i)).find? (fun r => r.id == j) =
        (l.find? (fun r => r.id == j)).map (touchRow am i)
  | [] => rfl
  | a :: l => by
    rw [List.map_cons, List.find?_cons, List.find?_cons, touchRow_id]
    cases haj : (a.id == j) with
    | false => exact find?_map_touch am i j l
    | true => rfl

/-- `touchRow` on the row the update targets applies exactly the fields
supplied in the body, leaving the rest at their stored values. -/
theorem touchRow_self (m : user.Model) (body : UpdateUser) :
    touchRow (updateActive m body) m.id m =
      ⟨m.id, body.name.getD m.name, body.email.getD m.email, m.created_at⟩ := by
  rcases body with ⟨bn, be⟩
  rcases m with ⟨i, nm, em, ca⟩
  cases bn <;> cases be <;> simp [touchRow, updateActive, user.Model.intoActive, applyColumn]

/-- `update_user` on an existing row, no faults: 200 with the DTO whose
name/email are the supplied-or-prior values, and the persisted row
agrees (ids and `created_at` untouched). -/
theorem update_user_found (db : Db) (id : Int) (m : user.Model)
    (body : UpdateUser) (h : dbFindById db id = some m) :
    (update_user noFaults id body db).1 =
      ⟨200, Body.jsonUser ⟨m.id, body.name.getD m.name, body.email.getD m.email⟩⟩ ∧
    dbFindById (update_user noFaults id body db).2 id =
      some ⟨m.id, body.name.getD m.name, body.email.getD m.email, m.created_at⟩ ∧
    (update_user noFaults id body db).2 =
      ⟨db.rows.map (touchRow (updateActive m body) m.id), db.nextId⟩ := by
  have hfd : db.rows.find? (fun r => r.id == id) = some m := h
  have hp := List.find?_some hfd
  have hid : m.id = id := by simpa using hp
  subst hid
  have hmem : m ∈ db.rows := List.mem_of_find?_eq_some hfd
  have hany : db.rows.any (fun r => r.id == m.id) = true :=
    List.any_eq_true.mpr ⟨m, hmem, by simp⟩
  have hupd :
      dbUpdate db (updateActive m body) =
        some (⟨db.rows.map (touchRow (updateActive m body) m.id), db.nextId⟩,
          ⟨m.id, body.name.getD m.name, body.email.getD m.email, m.created_at⟩) := by
    simp only [dbUpdate, updateActive_id_value, updateActive_name_value,
      updateActive_email_value, updateActive_created_at_value, hany,
      if_true]
  refine ⟨?_, ?_, ?_⟩
  · simp only [update_user, noFaults_eval, h, hupd]
    rfl
  · simp only [update_user, noFaults_eval, h, hupd]
    show (List.map (touchRow (updateActive m body) m.id) db.rows).find?
        (fun r => r.id == m.id) = _
    rw [find?_map_touch, hfd]
    show some (touchRow (updateActive m body) m.id m) = _
    rw [touchRow_self]
  · simp only [update_user, noFaults_eval, h, hupd]

/-- C2: for every existing row, UPDATE applies only the fields present
in the partial body: `{name: X}` changes only `name` and leaves `email`
unchanged, `{email: Y}` changes only `email` and leaves `name`
unchanged, and an omitted field passes through with its prior value
(both in the 200 response DTO and in the persisted row; `created_at`
is also untouched). -/
theorem C2_partial_update_frame (db : Db) (id : Int) (m : user.Model)
    (x y : String) (h : dbFindById db id = some m) :
    ((update_user noFaults id ⟨some x, none⟩ db).1 =
        ⟨200, Body.jsonUser ⟨m.id, x, m.email⟩⟩ ∧
      dbFindById (update_user noFaults id ⟨some x, none⟩ db).2 id =
        some ⟨m.id, x, m.email, m.created_at⟩) ∧
    ((update_user noFaults id ⟨none, some y⟩ db).1 =
        ⟨200, Body.jsonUser ⟨m.id, m.name, y⟩⟩ ∧
      dbFindById (update_user noFaults id ⟨none, some y⟩ db).2 id =
        some ⟨m.id, m.name, y, m.created_at⟩) :=
  ⟨⟨(update_user_found db id m ⟨some x, none⟩ h).1,
    (update_user_found db id m ⟨some x, none⟩ h).2.1⟩,
   ⟨(update_user_found db id m ⟨none, some y⟩ h).1,
    (update_user_found db id m ⟨none, some y⟩ h).2.1⟩⟩

theorem C2_partial_update_frame_witness :
    ((update_user noFaults 1 ⟨some "X", none⟩
          ⟨[⟨1, "Ada", "ada@x.io", none⟩], 2⟩).1 =
        ⟨200, Body.jsonUser ⟨1, "X", "ada@x.io"⟩⟩ ∧
      dbFindById (update_user noFaults 1 ⟨some "X", none⟩
          ⟨[⟨1, "Ada", "ada@x.io", none⟩], 2⟩).2 1 =
        some ⟨1, "X", "ada@x.io", none⟩) ∧
    ((update_user noFaults 1 ⟨none, some "Y"⟩
          ⟨[⟨1, "Ada", "ada@x.io", none⟩], 2⟩).1 =
        ⟨200, Body.jsonUser ⟨1, "Ada", "Y"⟩⟩ ∧
      dbFindById (update_user noFaults 1 ⟨none, some "Y"⟩
          ⟨[⟨1, "Ada", "ada@x.io", none⟩], 2⟩).2 1 =
        some ⟨1, "Ada", "Y", none⟩) :=
  C2_partial_update_frame ⟨[⟨1, "Ada", "ada@x.io", none⟩], 2⟩ 1
    ⟨1, "Ada", "ada@x.io", none⟩ "X" "Y" (by decide)

/-- C8: a User's id never changes: the UPDATE handler leaves every
stored row's id as it was (in order), and whenever it responds 200 with
a DTO, that DTO's id equals the id requested in the path. -/
theorem C8_id_immutable (db : Db) (id : Int) (body : UpdateUser) :
    (update_user noFaults id body db).2.rows.map (fun r => r.id) =
        db.rows.map (fun r => r.id) ∧
    ∀ u : UserResponse,
      (update_user noFaults id body db).1 = ⟨200, Body.jsonUser u⟩ →
        u.id = id := by
  cases hfind : dbFindById db id with
  | none =>
    constructor
    · simp [update_user, hfind]
    · intro u hu
      simp [update_user, hfind] at hu
  | some m =>
    have hfd : db.rows.find? (fun r => r.id == id) = some m := hfind
    have hp := List.find?_some hfd
    have hid : m.id = id := by simpa using hp
    have hfound := update_user_found db id m body hfind
    constructor
    · rw [hfound.2.2]
      simp [List.map_map, Function.comp_def, touchRow_id]
    · intro u hu
      have h3 := congrArg HttpResponse.body (hfound.1.symm.trans hu)
      have h4 : (⟨m.id, body.name.getD m.name, body.email.getD m.email⟩ :
          UserResponse) = u := by
        injection h3
      rw [← h4]
      exact hid

theorem C8_id_immutable_witness :
    (update_user noFaults 1 ⟨some "X", none⟩
        ⟨[⟨1, "Ada", "ada@x.io", none⟩], 2⟩).2.rows.map (fun r => r.id) =
      [⟨1, "Ada", "ada@x.io", none⟩].map (fun r : user.Model => r.id) ∧
    (⟨1, "X", "ada@x.io"⟩ : UserResponse).id = 1 :=
  ⟨(C8_id_immutable ⟨[⟨1, "Ada", "ada@x.io", none⟩], 2⟩ 1 ⟨some "X", none⟩).1,
   (C8_id_immutable ⟨[⟨1, "Ada", "ada@x.io", none⟩], 2⟩ 1 ⟨some "X", none⟩).2
     ⟨1, "X", "ada@x.io"⟩ (by decide)⟩

/-- C6: every database-layer error from a store call is mapped by the
handler to HTTP 500 with the error text embedded in the body
(`"db error: " ++ e`), with no retry: the single error response is
returned and the state reflects only the calls that succeeded before
the failure.  Covered: the first store call of each of the five
handlers, and the second store call of CREATE (post-insert re-read) and
of UPDATE. -/
theorem C6_storage_error_500 (db : Db) (e : String) (id : Int)
    (cbody : CreateUser) (ubody : UpdateUser) (m : user.Model)
    (hm : dbFindById db id = some m) :
    dbError e = ⟨500, Body.text ("db error: " ++ e)⟩ ∧
    list_users (faultAt 0 e) db = (dbError e, db) ∧
    get_user (faultAt 0 e) id db = (dbError e, db) ∧
    create_user (faultAt 0 e) cbody db = (dbError e, db) ∧
    update_user (faultAt 0 e) id ubody db = (dbError e, db) ∧
    delete_user (faultAt 0 e) id db = (dbError e, db) ∧
    (create_user (faultAt 1 e) cbody db).1 = dbError e ∧
    update_user (faultAt 1 e) id ubody db = (dbError e, db) := by
  have h0 : faultAt 1 e 0 = none := rfl
  have h1 : faultAt 1 e 1 = some e := rfl
  refine ⟨rfl, rfl, rfl, rfl, rfl, rfl, rfl, ?_⟩
  simp only [update_user, h0, hm, h1]

theorem C6_storage_error_500_witness :
    dbError "boom" = ⟨500, Body.text ("db error: " ++ "boom")⟩ ∧
    list_users (faultAt 0 "boom") ⟨[⟨1, "Ada", "ada@x.io", none⟩], 2⟩ =
      (dbError "boom", ⟨[⟨1, "Ada", "ada@x.io", none⟩], 2⟩) ∧
    get_user (faultAt 0 "boom") 1 ⟨[⟨1, "Ada", "ada@x.io", none⟩], 2⟩ =
      (dbError "boom", ⟨[⟨1, "Ada", "ada@x.io", none⟩], 2⟩) ∧
    create_user (faultAt 0 "boom") ⟨"Bob", "bob@y.io"⟩
        ⟨[⟨1, "Ada", "ada@x.io", none⟩], 2⟩ =
      (dbError "boom", ⟨[⟨1, "Ada", "ada@x.io", none⟩], 2⟩) ∧
    update_user (faultAt 0 "boom") 1 ⟨some "X", none⟩
        ⟨[⟨1, "Ada", "ada@x.io", none⟩], 2⟩ =
      (dbError "boom", ⟨[⟨1, "Ada", "ada@x.io", none⟩], 2⟩) ∧
    delete_user (faultAt 0 "boom") 1 ⟨[⟨1, "Ada", "ada@x.io", none⟩], 2⟩ =
      (dbError "boom", ⟨[⟨1, "Ada", "ada@x.io", none⟩], 2⟩) ∧
    (create_user (faultAt 1 "boom") ⟨"Bob", "bob@y.io"⟩
        ⟨[⟨1, "Ada", "ada@x.io", none⟩], 2⟩).1 = dbError "boom" ∧
    update_user (faultAt 1 "boom") 1 ⟨some "X", none⟩
        ⟨[⟨1, "Ada", "ada@x.io", none⟩], 2⟩ =
      (dbError "boom", ⟨[⟨1, "Ada", "ada@x.io", none⟩], 2⟩) :=
  C6_storage_error_500 ⟨[⟨1, "Ada", "ada@x.io", none⟩], 2⟩ "boom" 1
    ⟨"Bob", "bob@y.io"⟩ ⟨some "X", none⟩ ⟨1, "Ada", "ada@x.io", none⟩
    (by decide)

theorem runSteps_cons (go : MigrationDef → Schema → Except String Schema)
    (m : MigrationDef) (rest : List MigrationDef) (s : Schema) :
    runSteps go (m :: rest) s = (go m s).bind (runSteps go rest) := by
  cases h : go m s <;> simp [runSteps, h, Except.bind]

/-- C7: the Schema Manager registers exactly three migration steps in
order — create posts table, create users table, seed posts — runs them
in that order for up and in reverse for down; step 1's up creates the
`posts` table guarded by if-not-exists with columns id (auto primary
key), title (string), text (long text), created_at and updated_at
(timestamp-with-timezone), and its down drops the table. -/
theorem C7_migrations (s : Schema) :
    Migrator.migrations = [postMigration, usersMigration, seedPostsMigration] ∧
    migrateUp s =
      ((postMigration.up s).bind fun s1 =>
        (usersMigration.up s1).bind fun s2 => seedPostsMigration.up s2) ∧
    migrateDown s =
      ((seedPostsMigration.down s).bind fun s1 =>
        (usersMigration.down s1).bind fun s2 => postMigration.down s2) ∧
    postMigration.up s = .ok (createTableIfNotExists s postsTable) ∧
    (s.tables.any (fun t => t.tableName == "posts") = true →
      createTableIfNotExists s postsTable = s) ∧
    (s.tables.any (fun t => t.tableName == "posts") = false →
      (createTableIfNotExists s postsTable).tables = s.tables ++ [postsTable]) ∧
    postsTable =
      ⟨"posts",
       [⟨"id", .autoPk, false⟩, ⟨"title", .string, false⟩,
        ⟨"text", .text, false⟩, ⟨"created_at", .timestampTz, false⟩,
        ⟨"updated_at", .timestampTz, false⟩]⟩ ∧
    postMigration.down s = dropTable s "posts" ∧
    (s.tables.any (fun t => t.tableName == "posts") = true →
      dropTable s "posts" =
        .ok { s with
                tables := s.tables.filter (fun t => !(t.tableName == "posts")) }) := by
  refine ⟨rfl, rfl, ?_, rfl, ?_, ?_, rfl, rfl, ?_⟩
  · show runSteps (fun m => m.down) [usersMigration, postMigration]
        { s with postsSeeded := false } =
      (usersMigration.down { s with postsSeeded := false }).bind
        (fun s2 => postMigration.down s2)
    rw [runSteps_cons]
    cases hu : usersMigration.down { s with postsSeeded := false } with
    | error e => rfl
    | ok s2 =>
      show runSteps (fun m => m.down) [postMigration] s2 = postMigration.down s2
      rw [runSteps_cons]
      cases hp : postMigration.down s2 with
      | error e2 => rfl
      | ok s3 => rfl
  · intro h
    have h2 : (s.tables.any fun t => t.tableName == postsTable.tableName) =
        true := h
    simp [createTableIfNotExists, h2]
  · intro h
    have h2 : (s.tables.any fun t => t.tableName == postsTable.tableName) =
        false := h
    simp [createTableIfNotExists, h2]
  · intro h
    simp [dropTable, h]

theorem C7_migrations_witness :
    createTableIfNotExists ⟨[postsTable], false⟩ postsTable =
      ⟨[postsTable], false⟩ ∧
    (createTableIfNotExists ⟨[], false⟩ postsTable).tables =
      ([] : List TableDef) ++ [postsTable] ∧
    dropTable ⟨[postsTable], false⟩ "posts" =
      .ok { Schema.mk [postsTable] false with
              tables :=
                [postsTable].filter (fun t => !(t.tableName == "posts")) } :=
  ⟨(C7_migrations ⟨[postsTable], false⟩).2.2.2.2.1 (by decide),
   (C7_migrations ⟨[], false⟩).2.2.2.2.2.1 (by decide),
   (C7_migrations ⟨[postsTable], false⟩).2.2.2.2.2.2.2.2 (by decide)⟩
